import Mathlib

/-! The package `azmail`: the mail dispatcher of `send.go`.

A shallow embedding of `send.go` (package `azmail`) and the properties of its
three entry points `newMailMessage`, `sendMessage` / `SendMail` and `SendMails`.

Conventions of the embedding.

* A Go `error` interface value is an `Option GoError`; `none` is `nil`.
* A Go slice is a `List`; the `nil` slice and the empty slice are both `[]`.
* A `*Mail` is an `Option Mail`; `none` is the nil pointer, and dereferencing it
  panics.
* The signer (`generateSignedMessageRequest`, not part of `send.go`), the
  transport (`http.DefaultClient.Do`) and the decoder (`json.Unmarshal`) are the
  fields of an environment `Env`, over an arbitrary state `σ` of the outside
  world that the signer and the transport may read and change.
* Every entry into `sendMessage`, every call of the transport and every close of
  a response body is recorded in a ghost trace carried next to the world state.
-/

namespace Azmail

/-! ## Values of the Go standard library -/

/-- Raw bytes, each below 256. -/
abbrev Bytes := List Nat

/-- The errors `json.Unmarshal` reports for the envelope types of `send.go`:
a `*json.SyntaxError` or a `*json.UnmarshalTypeError`. -/
inductive JsonError where
  | SyntaxError (msg : String) (Offset : Int)
  | UnmarshalTypeError (Value : String) (Typ : String) (Offset : Int)
      (Struct : String) (Field : String)
  deriving Repr

/-- The text a `JsonError` prints. -/
def JsonError.Error : JsonError → String
  | .SyntaxError msg _ => msg
  | .UnmarshalTypeError v t _ s f =>
    if s ≠ "" ∨ f ≠ "" then
      "json: cannot unmarshal " ++ v ++ " into Go struct field " ++ s ++ "." ++ f
        ++ " of type " ++ t
    else
      "json: cannot unmarshal " ++ v ++ " into Go value of type " ++ t

/-- A non-nil Go error value, by dynamic type.

* `errorString s` is what `errors.New(s)` makes;
* `joinError errs` is what `errors.Join` makes of the non-nil errors `errs`;
* `jsonError e` is an error of `encoding/json`;
* `external pkg text` is an error value of any other type (of the signer, of
  `net/http`, of reading a body), printing as `text`. -/
inductive GoError where
  | errorString (s : String)
  | joinError (errs : List GoError)
  | jsonError (e : JsonError)
  | external (pkg : String) (text : String)

/-- An `error` interface value: `none` is `nil`. -/
abbrev error := Option GoError

/-- The function `errors.New`. -/
def errorsNew (text : String) : GoError := .errorString text

/-- The function `errors.Join`: nil errors are dropped; the result is nil when
nothing is left and otherwise one error that wraps what is left, in order. -/
def errorsJoin (errs : List error) : error :=
  match errs.filterMap id with
  | [] => none
  | e :: es => some (.joinError (e :: es))

/-- Lines joined by a newline, as `(*joinError).Error` joins the texts. -/
def joinLines : List String → String
  | [] => ""
  | [s] => s
  | s :: t :: rest => s ++ "\n" ++ joinLines (t :: rest)

mutual
/-- The method `Error()` of an error value. -/
def GoError.Error : GoError → String
  | .errorString s => s
  | .joinError errs => joinLines (GoError.ErrorList errs)
  | .jsonError e => e.Error
  | .external _ text => text
/-- The texts of a list of errors. -/
def GoError.ErrorList : List GoError → List String
  | [] => []
  | e :: es => GoError.Error e :: GoError.ErrorList es
end

/-- The method `Unwrap() []error`: the errors a joined error wraps; an error of
another type wraps no list. -/
def GoError.Unwrap : GoError → List GoError
  | .joinError errs => errs
  | _ => []

/-- A value decoded into a Go `any`: `nil`, `bool`, `float64` (as its 64 bits),
`string`, `[]any` or `map[string]any`. -/
inductive GoAny where
  | nil
  | bool (b : Bool)
  | float64 (bits : Nat)
  | string (s : String)
  | slice (xs : List GoAny)
  | map (kv : List (String × GoAny))

/-- The constant `http.StatusAccepted`. -/
def StatusAccepted : Int := 202

/-! ## The data model -/

/-- Modelled from the spec: the type `MailAddress` is declared outside `send.go`;
an address of a recipient or of a reply-to entry. -/
structure MailAddress where
  Address : String
  DisplayName : String
  deriving DecidableEq, Repr

/-- Modelled from the spec: the type `MailRecipients` is declared outside
`send.go`; the to, cc and bcc address lists. -/
structure MailRecipients where
  To : List MailAddress
  CC : List MailAddress
  BCC : List MailAddress
  deriving DecidableEq, Repr

/-- Modelled from the spec: the type `MailContent` is declared outside `send.go`;
the subject and the plain-text and HTML bodies. -/
structure MailContent where
  Subject : String
  PlainText : String
  Html : String
  deriving DecidableEq, Repr

/-- Modelled from the spec: the type `MailAttachment` is declared outside
`send.go`; a name, a content type and a base64 payload. -/
structure MailAttachment where
  Name : String
  ContentType : String
  ContentInBase64 : String
  deriving DecidableEq, Repr

/-- Modelled from the spec: the type `Mail` is declared outside `send.go`, which
reads its fields `Attachments`, `Content` and `Recipients`; the spec gives it
optional reply-to addresses as well. -/
structure Mail where
  Recipients : MailRecipients
  Content : MailContent
  Attachments : List MailAttachment
  ReplyTo : List MailAddress
  deriving DecidableEq, Repr

/-- Modelled from the spec: the type `Client` is declared outside `send.go`, which
reads its field `senderAddr`; the spec gives it an endpoint and a key as well. -/
structure Client where
  endpoint : String
  accessKey : String
  senderAddr : String
  deriving DecidableEq, Repr

/-- The struct `mailMessage`, the wire message, fields in the order declared. -/
structure mailMessage where
  Attachments : List MailAttachment
  Content : MailContent
  Recipients : MailRecipients
  ReplyTo : List MailAddress
  SenderAddr : String
  UserEngagementTrackingDisabled : Bool
  deriving DecidableEq, Repr

/-- An entry of `errorDetailResponse.AdditionalInfo`. -/
structure AdditionalInfo where
  Info : GoAny
  Typ : String

mutual
/-- The struct `errorResponse`. -/
inductive errorResponse where
  | mk (Error : errorDetailResponse)
/-- The struct `errorDetailResponse`. -/
inductive errorDetailResponse where
  | mk (AdditionalInfo : List AdditionalInfo) (Code : String)
      (Details : List errorResponse) (Message : String) (Target : String)
end

/-- Field `Error` of an `errorResponse`. -/
def errorResponse.Error : errorResponse → errorDetailResponse
  | .mk e => e

/-- Field `Message` of an `errorDetailResponse`. -/
def errorDetailResponse.Message : errorDetailResponse → String
  | .mk _ _ _ m _ => m

/-- The zero value of `errorDetailResponse`. -/
def errorDetailResponse.zero : errorDetailResponse := .mk [] "" [] "" ""

/-- The struct `mailResponse`. -/
structure mailResponse where
  ID : String
  Error : errorDetailResponse

/-- An `*http.Request`, as the signer builds it. -/
structure Request where
  Method : String
  URL : String
  Header : List (String × String)
  Body : Bytes
  deriving DecidableEq, Repr

/-- An `*http.Response`: its status code, and what `b.ReadFrom(resp.Body)` yields,
the bytes of the body or the error of the read. -/
structure Response where
  StatusCode : Int
  Body : Except GoError Bytes

/-- What `sendMessage` calls outside `send.go`, over a world state `σ`. -/
structure Env (σ : Type) where
  /-- The method `(*Client).generateSignedMessageRequest`. -/
  generateSignedMessageRequest : Client → mailMessage → σ → Except GoError Request × σ
  /-- The call `http.DefaultClient.Do`. -/
  Do : Request → σ → Except GoError Response × σ
  /-- The call `json.Unmarshal(data, &mailResp)`. -/
  unmarshalMailResponse : Bytes → Except JsonError mailResponse
  /-- The call `json.Unmarshal(data, &errorResp)`. -/
  unmarshalErrorResponse : Bytes → Except JsonError errorResponse

/-- A ghost event. -/
inductive Event where
  | sendMessage (msg : mailMessage)
  | Do (req : Request)
  | Close
  deriving DecidableEq, Repr

/-- The world state with the ghost trace, oldest event first. -/
structure World (σ : Type) where
  ext : σ
  trace : List Event

/-- The world after one more event. -/
def World.log {σ : Type} (w : World σ) (e : Event) : World σ :=
  { w with trace := w.trace ++ [e] }

/-- The messages `sendMessage` was entered with, oldest first. -/
def sends : List Event → List mailMessage
  | [] => []
  | .sendMessage m :: es => m :: sends es
  | _ :: es => sends es

/-- The requests the transport was called with, oldest first. -/
def transportCalls : List Event → List Request
  | [] => []
  | .Do r :: es => r :: transportCalls es
  | _ :: es => transportCalls es

/-! ## The functions of `send.go` -/

/-- The method `(*Client).newMailMessage`. -/
def newMailMessage (c : Client) (mail : Mail) : mailMessage :=
  mailMessage.mk
    mail.Attachments
    mail.Content
    mail.Recipients
    []
    c.senderAddr
    true

/-- The method `(*Client).sendMessage`: the pair it returns, and the world after. -/
def sendMessage {σ : Type} (env : Env σ) (c : Client) (msg : mailMessage)
    (w : World σ) : (String × error) × World σ :=
  let w := w.log (.sendMessage msg)
  match env.generateSignedMessageRequest c msg w.ext with
  | (.error err, s) => (("", some err), { w with ext := s })
  | (.ok req, s) =>
    let w := { w with ext := s }.log (.Do req)
    match env.Do req w.ext with
    | (.error err, s) => (("", some err), { w with ext := s })
    | (.ok resp, s) =>
      let w : World σ := { w with ext := s }
      -- the deferred `resp.Body.Close()` runs on every return below
      let w := w.log .Close
      if resp.StatusCode = StatusAccepted then
        match resp.Body with
        | .error err => (("", some err), w)
        | .ok b =>
          match env.unmarshalMailResponse b with
          | .error err => (("", some (.jsonError err)), w)
          | .ok mailResp => ((mailResp.ID, none), w)
      else
        match resp.Body with
        | .error err => (("", some err), w)
        | .ok b =>
          match env.unmarshalErrorResponse b with
          | .error err => (("", some (.jsonError err)), w)
          | .ok errorResp => (("", some (errorsNew errorResp.Error.Message)), w)

/-- A run-time panic. -/
inductive Panic where
  | nilPointerDereference
  deriving DecidableEq, Repr

/-- The method `(*Client).SendMail`; the nil pointer panics before any send. -/
def SendMail {σ : Type} (env : Env σ) (c : Client) (mail : Option Mail)
    (w : World σ) : Except Panic (String × error) × World σ :=
  match mail with
  | none => (.error .nilPointerDereference, w)
  | some mail =>
    let msg := newMailMessage c mail
    let (r, w) := sendMessage env c msg w
    (.ok r, w)

/-- The loop of `SendMails`, from the mails still to send and the errors saved so
far to the errors saved at the end. -/
def SendMails.loop {σ : Type} (env : Env σ) (c : Client) :
    List (Option Mail) → List GoError → World σ → Except Panic (List GoError) × World σ
  | [], errs, w => (.ok errs, w)
  | none :: _, _, w => (.error .nilPointerDereference, w)
  | some mail :: rest, errs, w =>
    let msg := newMailMessage c mail
    match sendMessage env c msg w with
    | ((_, some err), w) => SendMails.loop env c rest (errs ++ [err]) w
    | ((_, none), w) => SendMails.loop env c rest errs w

/-- The method `(*Client).SendMails`. -/
def SendMails {σ : Type} (env : Env σ) (c : Client) (mails : List (Option Mail))
    (w : World σ) : Except Panic error × World σ :=
  match SendMails.loop env c mails [] w with
  | (.error p, w) => (.error p, w)
  | (.ok errs, w) => (.ok (errorsJoin (errs.map some)), w)

/-! ## The outcomes of the individual sends -/

/-- What each send of a batch returns: `sendMessage` on the wire message of each
mail in turn, each send starting in the world the one before it left. -/
def sendOutcomes {σ : Type} (env : Env σ) (c : Client) :
    List Mail → World σ → List (String × error)
  | [], _ => []
  | mail :: rest, w =>
    match sendMessage env c (newMailMessage c mail) w with
    | (r, w) => r :: sendOutcomes env c rest w

/-- The world a batch leaves: `sendMessage` run on the wire message of each mail
in turn, each send starting in the world the one before it left. -/
def sendAll {σ : Type} (env : Env σ) (c : Client) : List Mail → World σ → World σ
  | [], w => w
  | mail :: rest, w => sendAll env c rest (sendMessage env c (newMailMessage c mail) w).2

/-- The errors of the sends that failed, in the order of the mails. -/
def failures (outcomes : List (String × error)) : List GoError :=
  outcomes.filterMap (fun r => r.2)

/-- The two outcomes the spec allows a send: an id with a nil error, or the
empty id with a non-nil error. -/
def exactlyOneOutcome (r : String × error) : Prop :=
  (r.1 ≠ "" ∧ r.2 = none) ∨ (r.1 = "" ∧ r.2 ≠ none)

/-! ## A scripted environment, for concrete runs -/

/-- The bytes of an ASCII text. -/
def asciiBytes (s : String) : Bytes := s.toList.map Char.toNat

/-- The body `{"id":"abc123","error":{}}`. -/
def acceptedBody : Bytes := asciiBytes "\x7b\"id\":\"abc123\",\"error\":\x7b\x7d\x7d"

/-- The body `{"error":{"code":"InvalidRecipient","message":"bad address",
"target":"","details":[],"additionalInfo":[]}}`. -/
def badAddressBody : Bytes :=
  asciiBytes ("\x7b\"error\":\x7b\"code\":\"InvalidRecipient\",\"message\":\"bad address\","
    ++ "\"target\":\"\",\"details\":[],\"additionalInfo\":[]\x7d\x7d")

/-- The body `{}`. -/
def emptyObjectBody : Bytes := asciiBytes "\x7b\x7d"

/-- A scripted signer: the key `!` is not base64 and fails the signing; any other
key yields a POST request that carries the subject of the message as its body. -/
def scriptedSigner (c : Client) (msg : mailMessage) (calls : Nat) :
    Except GoError Request × Nat :=
  if c.accessKey = "!" then
    (.error (.external "encoding/base64" "illegal base64 data at input byte 0"), calls)
  else
    (.ok { Method := "POST", URL := c.endpoint ++ "/emails:send", Header := [],
           Body := asciiBytes msg.Content.Subject }, calls)

/-- A scripted transport, which counts its calls in the world state and answers by
the body of the request. -/
def scriptedDo (req : Request) (calls : Nat) : Except GoError Response × Nat :=
  if req.Body = asciiBytes "timeout" then
    (.error (.external "net/http" "context deadline exceeded"), calls + 1)
  else if req.Body = asciiBytes "rejected" then
    (.ok { StatusCode := 400, Body := .ok badAddressBody }, calls + 1)
  else if req.Body = asciiBytes "no id" then
    (.ok { StatusCode := 202, Body := .ok emptyObjectBody }, calls + 1)
  else if req.Body = asciiBytes "no message" then
    (.ok { StatusCode := 500, Body := .ok emptyObjectBody }, calls + 1)
  else if req.Body = asciiBytes "empty 202" then
    (.ok { StatusCode := 202, Body := .ok [] }, calls + 1)
  else if req.Body = asciiBytes "empty 502" then
    (.ok { StatusCode := 502, Body := .ok [] }, calls + 1)
  else
    (.ok { StatusCode := 202, Body := .ok acceptedBody }, calls + 1)

/-- A scripted decoder for `mailResponse`: it decodes the two bodies below as
`json.Unmarshal` does, and reports the error of the empty input for any other. -/
def scriptedUnmarshalMailResponse (b : Bytes) : Except JsonError mailResponse :=
  if b = acceptedBody then .ok { ID := "abc123", Error := errorDetailResponse.zero }
  else if b = emptyObjectBody then .ok { ID := "", Error := errorDetailResponse.zero }
  else .error (.SyntaxError "unexpected end of JSON input" 0)

/-- A scripted decoder for `errorResponse`: it decodes the two bodies below as
`json.Unmarshal` does, and reports the error of the empty input for any other. -/
def scriptedUnmarshalErrorResponse (b : Bytes) : Except JsonError errorResponse :=
  if b = badAddressBody then
    .ok (.mk (.mk [] "InvalidRecipient" [] "bad address" ""))
  else if b = emptyObjectBody then .ok (.mk errorDetailResponse.zero)
  else .error (.SyntaxError "unexpected end of JSON input" 0)

/-- The scripted environment. -/
def scriptedEnv : Env Nat where
  generateSignedMessageRequest := scriptedSigner
  Do := scriptedDo
  unmarshalMailResponse := scriptedUnmarshalMailResponse
  unmarshalErrorResponse := scriptedUnmarshalErrorResponse

/-- A client with a usable key. -/
def sampleClient : Client :=
  { endpoint := "https://example.invalid", accessKey := "c2VjcmV0",
    senderAddr := "noreply@example.invalid" }

/-- A client whose key is not base64. -/
def badKeyClient : Client := { sampleClient with accessKey := "!" }

/-- A mail to one recipient, with the subject given and one reply-to address. -/
def sampleMail (subject : String) : Mail :=
  { Recipients := { To := [{ Address := "a@example.invalid", DisplayName := "A" }],
                    CC := [], BCC := [] },
    Content := { Subject := subject, PlainText := "hello", Html := "" },
    Attachments := [],
    ReplyTo := [{ Address := "replies@example.invalid", DisplayName := "Replies" }] }

/-- The world before anything was sent. -/
def world0 : World Nat := { ext := 0, trace := [] }

/-! ## Lemmas on the ghost trace -/

theorem sends_append (xs ys : List Event) : sends (xs ++ ys) = sends xs ++ sends ys := by
  induction xs with
  | nil => rfl
  | cons e es ih => cases e <;> simp [sends, ih]

theorem transportCalls_append (xs ys : List Event) :
    transportCalls (xs ++ ys) = transportCalls xs ++ transportCalls ys := by
  induction xs with
  | nil => rfl
  | cons e es ih => cases e <;> simp [transportCalls, ih]

/-- One send enters `sendMessage` once, with the message given. -/
theorem sendMessage_sends {σ : Type} (env : Env σ) (c : Client) (msg : mailMessage)
    (w : World σ) :
    sends (sendMessage env c msg w).2.trace = sends w.trace ++ [msg] := by
  unfold sendMessage
  simp only [World.log]
  split
  · simp [sends_append, sends]
  · split
    · simp [sends_append, sends]
    · split <;> split <;> try split
      all_goals simp [sends_append, sends]

/-! ## Lemmas on the loop of `SendMails` -/

/-- The loop over non-nil mails ends, with the errors saved before it followed by
the errors of the sends that failed. -/
theorem loop_errs {σ : Type} (env : Env σ) (c : Client) (mails : List Mail) :
    ∀ (errs : List GoError) (w : World σ),
      (SendMails.loop env c (mails.map some) errs w).1
        = .ok (errs ++ failures (sendOutcomes env c mails w)) := by
  induction mails with
  | nil => intro errs w; simp [SendMails.loop, sendOutcomes, failures]
  | cons mail rest ih =>
    intro errs w
    simp only [List.map_cons, SendMails.loop, sendOutcomes]
    rcases h : sendMessage env c (newMailMessage c mail) w with ⟨⟨id, err⟩, w1⟩
    cases err with
    | none => simp [ih, failures]
    | some e => simp [ih, failures, List.append_assoc]

/-- The loop over non-nil mails enters `sendMessage` once per mail, in order. -/
theorem loop_sends {σ : Type} (env : Env σ) (c : Client) (mails : List Mail) :
    ∀ (errs : List GoError) (w : World σ),
      sends (SendMails.loop env c (mails.map some) errs w).2.trace
        = sends w.trace ++ mails.map (newMailMessage c) := by
  induction mails with
  | nil => intro errs w; simp [SendMails.loop]
  | cons mail rest ih =>
    intro errs w
    simp only [List.map_cons, SendMails.loop]
    have hs := sendMessage_sends env c (newMailMessage c mail) w
    rcases h : sendMessage env c (newMailMessage c mail) w with ⟨⟨id, err⟩, w1⟩
    rw [h] at hs
    cases err with
    | none => simp only [ih, hs, List.append_assoc, List.singleton_append]
    | some e => simp only [ih, hs, List.append_assoc, List.singleton_append]

/-- The loop over non-nil mails leaves the world that running `sendMessage` on
each mail in turn leaves. -/
theorem loop_world {σ : Type} (env : Env σ) (c : Client) (mails : List Mail) :
    ∀ (errs : List GoError) (w : World σ),
      (SendMails.loop env c (mails.map some) errs w).2 = sendAll env c mails w := by
  induction mails with
  | nil => intro errs w; rfl
  | cons mail rest ih =>
    intro errs w
    simp only [List.map_cons, SendMails.loop, sendAll]
    rcases h : sendMessage env c (newMailMessage c mail) w with ⟨⟨id, err⟩, w1⟩
    cases err with
    | none => simp only [ih]
    | some e => simp only [ih]

/-- One outcome per mail. -/
theorem sendOutcomes_length {σ : Type} (env : Env σ) (c : Client) (mails : List Mail) :
    ∀ w : World σ, (sendOutcomes env c mails w).length = mails.length := by
  induction mails with
  | nil => intro w; rfl
  | cons mail rest ih => intro w; simp only [sendOutcomes, List.length_cons, ih]

/-- The outcome at position `i` is what `sendMessage` returns on the wire message
of the mail at position `i`, run in the world the sends before it left. -/
theorem sendOutcomes_getElem_opt {σ : Type} (env : Env σ) (c : Client) (mails : List Mail) :
    ∀ (w : World σ) (i : Nat) (mail : Mail), mails[i]? = some mail →
      (sendOutcomes env c mails w)[i]?
        = some (sendMessage env c (newMailMessage c mail)
            (sendAll env c (mails.take i) w)).1 := by
  induction mails with
  | nil => intro w i mail h; simp at h
  | cons m rest ih =>
    intro w i mail h
    cases i with
    | zero =>
      simp only [List.getElem?_cons_zero, Option.some.injEq] at h
      subst h
      simp [sendOutcomes, sendAll]
    | succ i =>
      simp only [List.getElem?_cons_succ] at h
      simp only [sendOutcomes, List.getElem?_cons_succ, List.take_succ_cons, sendAll]
      exact ih _ i mail h

/-- The function `SendMails` in terms of its loop. -/
theorem SendMails_eq {σ : Type} (env : Env σ) (c : Client) (mails : List Mail)
    (w : World σ) :
    SendMails env c (mails.map some) w
      = (.ok (errorsJoin ((failures (sendOutcomes env c mails w)).map some)),
         (SendMails.loop env c (mails.map some) [] w).2) := by
  have h := loop_errs env c mails [] w
  unfold SendMails
  rcases hl : SendMails.loop env c (mails.map some) [] w with ⟨r, w1⟩
  rw [hl] at h
  simp only at h
  subst h
  simp

/-- Joining non-nil errors: nil for none of them, else the error that wraps them. -/
theorem errorsJoin_map_some (errs : List GoError) :
    errorsJoin (errs.map some)
      = if errs.isEmpty then none else some (GoError.joinError errs) := by
  unfold errorsJoin
  have h : (errs.map some).filterMap id = errs := by
    induction errs with
    | nil => rfl
    | cons e es ih => simp [List.filterMap_cons, ih]
  rw [h]
  cases errs <;> simp

/-- No send failed exactly when the list of failures is empty. -/
theorem failures_eq_nil (outcomes : List (String × error)) :
    failures outcomes = [] ↔ ∀ r ∈ outcomes, r.2 = none := by
  unfold failures
  induction outcomes with
  | nil => simp
  | cons r rs ih =>
    rcases r with ⟨id, err⟩
    cases err with
    | none => simp [List.filterMap_cons, ih]
    | some e => simp [List.filterMap_cons]

/-! ## Batch send -/

/-- C1: `SendMails` never short-circuits. For every list of mails and every
behaviour of the signer, the transport and the decoder, `SendMails` returns
without a panic, and what it returns and the world it leaves are those of running
`sendMessage` on the wire message of every mail, in the order given: the send of
the mail at position `i` is `sendMessage` run in the world the sends before it
left, whatever those sends returned, there is one outcome per mail, the value
returned joins the errors of those outcomes, and the trace gains one entry of
`sendMessage` per mail, so the number of invocations is the number of mails. -/
theorem C1_SendMails_attempts_every_mail {σ : Type} (env : Env σ) (c : Client)
    (mails : List Mail) (w : World σ) :
    (∃ r, (SendMails env c (mails.map some) w).1 = .ok r)
    ∧ sends (SendMails env c (mails.map some) w).2.trace
        = sends w.trace ++ mails.map (newMailMessage c)
    ∧ (sends (SendMails env c (mails.map some) w).2.trace).length
        = (sends w.trace).length + mails.length
    ∧ (SendMails env c (mails.map some) w).2 = sendAll env c mails w
    ∧ (SendMails env c (mails.map some) w).1
        = .ok (errorsJoin ((failures (sendOutcomes env c mails w)).map some))
    ∧ (sendOutcomes env c mails w).length = mails.length
    ∧ (∀ (i : Nat) (mail : Mail), mails[i]? = some mail →
        (sendOutcomes env c mails w)[i]?
          = some (sendMessage env c (newMailMessage c mail)
              (sendAll env c (mails.take i) w)).1) := by
  have hs := loop_sends env c mails [] w
  have hw := loop_world env c mails [] w
  rw [SendMails_eq]
  refine ⟨⟨_, rfl⟩, hs, ?_, hw, rfl, sendOutcomes_length env c mails w,
    sendOutcomes_getElem_opt env c mails w⟩
  simp only [hs, List.length_append, List.length_map]

/-- C1, at a batch of three mails of which the first times out in the transport
and the second is rejected with status 400: the third is still sent, in the world
the first two left, and is accepted; the transport was called three times. -/
theorem C1_SendMails_attempts_every_mail_witness :
    (sendOutcomes scriptedEnv sampleClient
        [sampleMail "timeout", sampleMail "rejected", sampleMail "hello"] world0)[2]?
      = some ("abc123", none)
    ∧ (sendAll scriptedEnv sampleClient
        [sampleMail "timeout", sampleMail "rejected"] world0).ext = 2
    ∧ (SendMails scriptedEnv sampleClient
        ([sampleMail "timeout", sampleMail "rejected", sampleMail "hello"].map some)
          world0).2.ext = 3
    ∧ (transportCalls (SendMails scriptedEnv sampleClient
        ([sampleMail "timeout", sampleMail "rejected", sampleMail "hello"].map some)
          world0).2.trace).length = 3
    ∧ (sends (SendMails scriptedEnv sampleClient
        ([sampleMail "timeout", sampleMail "rejected", sampleMail "hello"].map some)
          world0).2.trace).length = (sends world0.trace).length + 3 :=
  have h := C1_SendMails_attempts_every_mail scriptedEnv sampleClient
    [sampleMail "timeout", sampleMail "rejected", sampleMail "hello"] world0
  ⟨(h.2.2.2.2.2.2 2 (sampleMail "hello") rfl).trans rfl, rfl,
    (congrArg World.ext h.2.2.2.1).trans rfl,
    (congrArg (fun w => (transportCalls w.trace).length) h.2.2.2.1).trans rfl,
    h.2.2.1⟩

/-- C2: `SendMails` returns nil if and only if none of the individual sends
returned an error; with zero mails it returns nil and leaves the world, and with
it the trace of transport calls, as it found it. -/
theorem C2_SendMails_nil_iff_no_failure {σ : Type} (env : Env σ) (c : Client)
    (mails : List Mail) (w : World σ) :
    ((SendMails env c (mails.map some) w).1 = .ok none
      ↔ ∀ r ∈ sendOutcomes env c mails w, r.2 = none)
    ∧ (SendMails env c [] w).1 = .ok none
    ∧ (SendMails env c [] w).2 = w
    ∧ transportCalls (SendMails env c [] w).2.trace = transportCalls w.trace := by
  refine ⟨?_, rfl, rfl, rfl⟩
  rw [SendMails_eq, errorsJoin_map_some, ← failures_eq_nil]
  cases h : failures (sendOutcomes env c mails w) <;> simp

/-- C3: when at least one send fails, `SendMails` returns an aggregate error
whose `Unwrap` is exactly the list of the errors the failing sends returned, one
for each failing mail, in the order of the mails, and none for a mail whose send
succeeded. -/
theorem C3_SendMails_aggregate_decomposes {σ : Type} (env : Env σ) (c : Client)
    (mails : List Mail) (w : World σ)
    (hfail : ∃ r ∈ sendOutcomes env c mails w, r.2 ≠ none) :
    ∃ agg : GoError,
      (SendMails env c (mails.map some) w).1 = .ok (some agg)
      ∧ agg.Unwrap = (sendOutcomes env c mails w).filterMap (fun r => r.2)
      ∧ agg.Unwrap.length
          = ((sendOutcomes env c mails w).filter (fun r => r.2.isSome)).length := by
  have hne : failures (sendOutcomes env c mails w) ≠ [] := by
    intro h
    rcases hfail with ⟨r, hr, hr2⟩
    exact hr2 ((failures_eq_nil _).1 h r hr)
  refine ⟨.joinError (failures (sendOutcomes env c mails w)), ?_, rfl, ?_⟩
  · rw [SendMails_eq, errorsJoin_map_some]
    cases h : failures (sendOutcomes env c mails w) with
    | nil => exact absurd h hne
    | cons e es => simp
  · simp only [GoError.Unwrap, failures]
    generalize sendOutcomes env c mails w = os
    induction os with
    | nil => rfl
    | cons r rs ih =>
      rcases r with ⟨id, err⟩
      cases err with
      | none => simpa [List.filterMap_cons, List.filter_cons] using ih
      | some e => simpa [List.filterMap_cons, List.filter_cons] using ih

/-- C3, at a concrete batch: of three mails the second is rejected with status
400 and the others are accepted; the aggregate wraps exactly the error of the
second, and the transport was called three times. -/
theorem C3_SendMails_aggregate_decomposes_witness :
    (∃ r ∈ sendOutcomes scriptedEnv sampleClient
        [sampleMail "one", sampleMail "rejected", sampleMail "three"] world0, r.2 ≠ none)
    ∧ (∃ agg : GoError,
        (SendMails scriptedEnv sampleClient
          ([sampleMail "one", sampleMail "rejected", sampleMail "three"].map some) world0).1
            = .ok (some agg)
        ∧ agg.Unwrap = (sendOutcomes scriptedEnv sampleClient
            [sampleMail "one", sampleMail "rejected", sampleMail "three"] world0).filterMap
              (fun r => r.2)
        ∧ agg.Unwrap.length = ((sendOutcomes scriptedEnv sampleClient
            [sampleMail "one", sampleMail "rejected", sampleMail "three"] world0).filter
              (fun r => r.2.isSome)).length)
    ∧ (sendOutcomes scriptedEnv sampleClient
        [sampleMail "one", sampleMail "rejected", sampleMail "three"] world0).filterMap
          (fun r => r.2) = [errorsNew "bad address"]
    ∧ (transportCalls (SendMails scriptedEnv sampleClient
        [some (sampleMail "one"), some (sampleMail "rejected"), some (sampleMail "three")]
          world0).2.trace).length = 3 :=
  have hfail : ∃ r ∈ sendOutcomes scriptedEnv sampleClient
      [sampleMail "one", sampleMail "rejected", sampleMail "three"] world0, r.2 ≠ none :=
    ⟨("", some (errorsNew "bad address")),
      List.Mem.tail _ (List.Mem.head _), fun h => Option.noConfusion h⟩
  ⟨hfail, C3_SendMails_aggregate_decomposes scriptedEnv sampleClient _ world0 hfail, rfl, rfl⟩

/-! ## Building the wire message -/

/-- C7: for every client and every mail, the wire message `newMailMessage` builds
has the recipients, the content and the attachments of the mail, the sender
address the client is configured with, and the engagement-tracking-disabled flag
set; `newMailMessage` is a function of the client and the mail alone. -/
theorem C7_newMailMessage_fields (c : Client) (mail : Mail) :
    (newMailMessage c mail).Recipients = mail.Recipients
    ∧ (newMailMessage c mail).Content = mail.Content
    ∧ (newMailMessage c mail).Attachments = mail.Attachments
    ∧ (newMailMessage c mail).SenderAddr = c.senderAddr
    ∧ (newMailMessage c mail).UserEngagementTrackingDisabled = true :=
  ⟨rfl, rfl, rfl, rfl, rfl⟩

/-- C6, at a mail with one reply-to address: the wire message `newMailMessage`
builds has no reply-to address, so its `ReplyTo` is not that of the mail; the
`ReplyTo` of the wire message is empty for every client and every mail. -/
theorem C6_newMailMessage_drops_replyTo :
    (sampleMail "hello").ReplyTo
        = [{ Address := "replies@example.invalid", DisplayName := "Replies" }]
    ∧ (newMailMessage sampleClient (sampleMail "hello")).ReplyTo = []
    ∧ (newMailMessage sampleClient (sampleMail "hello")).ReplyTo
        ≠ (sampleMail "hello").ReplyTo
    ∧ ∀ (c : Client) (mail : Mail), (newMailMessage c mail).ReplyTo = [] := by
  refine ⟨rfl, rfl, ?_, fun _ _ => rfl⟩
  simp [newMailMessage, sampleMail]

/-! ## Single send -/

/-- The function `SendMail` on a mail is `sendMessage` on its wire message. -/
theorem SendMail_some {σ : Type} (env : Env σ) (c : Client) (mail : Mail) (w : World σ) :
    SendMail env c (some mail) w
      = (.ok (sendMessage env c (newMailMessage c mail) w).1,
         (sendMessage env c (newMailMessage c mail) w).2) := rfl

/-- C4: when the signed request is built and transported, the status is 202 and
the body decodes as a success envelope, `sendMessage` returns the id of the
envelope with a nil error, whatever the error field of the envelope holds; and so
does `SendMail` for a mail with that wire message. -/
theorem C4_sendMessage_accepted {σ : Type} (env : Env σ) (c : Client)
    (msg : mailMessage) (w : World σ) (req : Request) (s1 : σ) (resp : Response) (s2 : σ)
    (b : Bytes) (mailResp : mailResponse)
    (hsign : env.generateSignedMessageRequest c msg w.ext = (.ok req, s1))
    (hdo : env.Do req s1 = (.ok resp, s2))
    (hstatus : resp.StatusCode = 202)
    (hbody : resp.Body = .ok b)
    (hdecode : env.unmarshalMailResponse b = .ok mailResp) :
    (sendMessage env c msg w).1 = (mailResp.ID, none)
    ∧ ∀ mail : Mail, newMailMessage c mail = msg →
        (SendMail env c (some mail) w).1 = .ok (mailResp.ID, none) := by
  have h : (sendMessage env c msg w).1 = (mailResp.ID, none) := by
    simp [sendMessage, World.log, hsign, hdo, hstatus, StatusAccepted, hbody, hdecode]
  refine ⟨h, ?_⟩
  intro mail hmail
  rw [SendMail_some, hmail, h]

/-- C4, at the body `{"id":"abc123","error":{}}` with status 202. -/
theorem C4_sendMessage_accepted_witness :
    (sendMessage scriptedEnv sampleClient (newMailMessage sampleClient (sampleMail "hello"))
        world0).1 = ("abc123", none)
    ∧ (SendMail scriptedEnv sampleClient (some (sampleMail "hello")) world0).1
        = .ok ("abc123", none) :=
  have h := C4_sendMessage_accepted scriptedEnv sampleClient
    (newMailMessage sampleClient (sampleMail "hello")) world0
    { Method := "POST", URL := "https://example.invalid/emails:send", Header := [],
      Body := asciiBytes "hello" } 0
    { StatusCode := 202, Body := .ok acceptedBody } 1 acceptedBody
    { ID := "abc123", Error := errorDetailResponse.zero } rfl rfl rfl rfl rfl
  ⟨h.1, h.2 (sampleMail "hello") rfl⟩

/-- C5: when the signed request is built and transported, the status is not 202
and the body decodes as an error envelope, `sendMessage` returns the empty id and
a non-nil error whose text is the top-level message of the envelope, whatever its
code, target, details and additional info; and so does `SendMail`. -/
theorem C5_sendMessage_api_error {σ : Type} (env : Env σ) (c : Client)
    (msg : mailMessage) (w : World σ) (req : Request) (s1 : σ) (resp : Response) (s2 : σ)
    (b : Bytes) (errorResp : errorResponse)
    (hsign : env.generateSignedMessageRequest c msg w.ext = (.ok req, s1))
    (hdo : env.Do req s1 = (.ok resp, s2))
    (hstatus : resp.StatusCode ≠ 202)
    (hbody : resp.Body = .ok b)
    (hdecode : env.unmarshalErrorResponse b = .ok errorResp) :
    ∃ err : GoError,
      (sendMessage env c msg w).1 = ("", some err)
      ∧ err.Error = errorResp.Error.Message
      ∧ ∀ mail : Mail, newMailMessage c mail = msg →
          (SendMail env c (some mail) w).1 = .ok ("", some err) := by
  have h : (sendMessage env c msg w).1 = ("", some (errorsNew errorResp.Error.Message)) := by
    simp [sendMessage, World.log, hsign, hdo, hstatus, StatusAccepted, hbody, hdecode]
  refine ⟨errorsNew errorResp.Error.Message, h, ?_, ?_⟩
  · simp [errorsNew, GoError.Error]
  · intro mail hmail
    rw [SendMail_some, hmail, h]

/-- C5, at status 400 with the message `bad address`. -/
theorem C5_sendMessage_api_error_witness :
    ∃ err : GoError,
      (sendMessage scriptedEnv sampleClient
        (newMailMessage sampleClient (sampleMail "rejected")) world0).1 = ("", some err)
      ∧ err.Error = "bad address"
      ∧ ∀ mail : Mail,
          newMailMessage sampleClient mail
              = newMailMessage sampleClient (sampleMail "rejected") →
            (SendMail scriptedEnv sampleClient (some mail) world0).1 = .ok ("", some err) :=
  C5_sendMessage_api_error scriptedEnv sampleClient
    (newMailMessage sampleClient (sampleMail "rejected")) world0
    { Method := "POST", URL := "https://example.invalid/emails:send", Header := [],
      Body := asciiBytes "rejected" } 0
    { StatusCode := 400, Body := .ok badAddressBody } 1 badAddressBody
    (.mk (.mk [] "InvalidRecipient" [] "bad address" "")) rfl rfl (by decide) rfl rfl

/-- C8: for every status code, 202 included, when the body is read and the decoder
for the envelope of that status fails, `sendMessage` returns the empty id and the
error of the decoder, unchanged; that error is none of the errors `errors.New`
builds from an envelope message. -/
theorem C8_sendMessage_decode_failure {σ : Type} (env : Env σ) (c : Client)
    (msg : mailMessage) (w : World σ) (req : Request) (s1 : σ) (resp : Response) (s2 : σ)
    (b : Bytes) (jsonErr : JsonError)
    (hsign : env.generateSignedMessageRequest c msg w.ext = (.ok req, s1))
    (hdo : env.Do req s1 = (.ok resp, s2))
    (hbody : resp.Body = .ok b)
    (hdecode : if resp.StatusCode = StatusAccepted
      then env.unmarshalMailResponse b = .error jsonErr
      else env.unmarshalErrorResponse b = .error jsonErr) :
    (sendMessage env c msg w).1 = ("", some (GoError.jsonError jsonErr))
    ∧ ∀ text : String, GoError.jsonError jsonErr ≠ errorsNew text := by
  refine ⟨?_, fun text h => GoError.noConfusion h⟩
  by_cases hstatus : resp.StatusCode = StatusAccepted
  · rw [if_pos hstatus] at hdecode
    simp [sendMessage, World.log, hsign, hdo, hstatus, hbody, hdecode]
  · rw [if_neg hstatus] at hdecode
    simp [sendMessage, World.log, hsign, hdo, hstatus, hbody, hdecode]

/-- C8, at an empty body, once with status 202 and once with status 502. -/
theorem C8_sendMessage_decode_failure_witness :
    ((sendMessage scriptedEnv sampleClient
        (newMailMessage sampleClient (sampleMail "empty 202")) world0).1
      = ("", some (GoError.jsonError (.SyntaxError "unexpected end of JSON input" 0)))
      ∧ ∀ text : String,
          GoError.jsonError (.SyntaxError "unexpected end of JSON input" 0) ≠ errorsNew text)
    ∧ ((sendMessage scriptedEnv sampleClient
        (newMailMessage sampleClient (sampleMail "empty 502")) world0).1
      = ("", some (GoError.jsonError (.SyntaxError "unexpected end of JSON input" 0)))
      ∧ ∀ text : String,
          GoError.jsonError (.SyntaxError "unexpected end of JSON input" 0) ≠ errorsNew text) :=
  ⟨C8_sendMessage_decode_failure scriptedEnv sampleClient
      (newMailMessage sampleClient (sampleMail "empty 202")) world0
      { Method := "POST", URL := "https://example.invalid/emails:send", Header := [],
        Body := asciiBytes "empty 202" } 0
      { StatusCode := 202, Body := .ok [] } 1 [] _ rfl rfl rfl rfl,
   C8_sendMessage_decode_failure scriptedEnv sampleClient
      (newMailMessage sampleClient (sampleMail "empty 502")) world0
      { Method := "POST", URL := "https://example.invalid/emails:send", Header := [],
        Body := asciiBytes "empty 502" } 0
      { StatusCode := 502, Body := .ok [] } 1 [] _ rfl rfl rfl rfl⟩

/-- C9 as stated fails: a 202 response whose body is `{}` decodes to an envelope
with the empty id, and `sendMessage` returns the empty id with a nil error. -/
theorem C9_empty_id_with_nil_error :
    (sendMessage scriptedEnv sampleClient
        (newMailMessage sampleClient (sampleMail "no id")) world0).1 = ("", none)
    ∧ ¬ exactlyOneOutcome (sendMessage scriptedEnv sampleClient
        (newMailMessage sampleClient (sampleMail "no id")) world0).1 := by
  have h : (sendMessage scriptedEnv sampleClient
      (newMailMessage sampleClient (sampleMail "no id")) world0).1 = ("", none) := rfl
  refine ⟨h, ?_⟩
  rw [h]
  simp [exactlyOneOutcome]

/-- C9, amended: `sendMessage` never returns a non-empty id together with a
non-nil error; it returns a nil error exactly when the request was signed and
transported, the status was 202, the body was read and decoded as a success
envelope, and the id returned is then the id of that envelope, empty or not; a
response of another status that decodes as an error envelope yields the empty id
and a non-nil error, also when the message of the envelope is empty. -/
theorem C9_sendMessage_outcome {σ : Type} (env : Env σ) (c : Client)
    (msg : mailMessage) (w : World σ) :
    ((sendMessage env c msg w).1.2 ≠ none → (sendMessage env c msg w).1.1 = "")
    ∧ ((sendMessage env c msg w).1.2 = none ↔
        ∃ req s1 resp s2 b mailResp,
          env.generateSignedMessageRequest c msg w.ext = (.ok req, s1)
          ∧ env.Do req s1 = (.ok resp, s2)
          ∧ resp.StatusCode = 202
          ∧ resp.Body = .ok b
          ∧ env.unmarshalMailResponse b = .ok mailResp
          ∧ (sendMessage env c msg w).1.1 = mailResp.ID)
    ∧ (∀ req s1 resp s2 b errorResp,
        env.generateSignedMessageRequest c msg w.ext = (.ok req, s1) →
        env.Do req s1 = (.ok resp, s2) →
        resp.StatusCode ≠ 202 →
        resp.Body = .ok b →
        env.unmarshalErrorResponse b = .ok errorResp →
        (sendMessage env c msg w).1.1 = "" ∧ (sendMessage env c msg w).1.2 ≠ none) := by
  refine ⟨?_, ?_, ?_⟩
  · unfold sendMessage
    simp only [World.log]
    split
    · simp
    · split
      · simp
      · split <;> split <;> try split
        all_goals simp
  · rcases hsign : env.generateSignedMessageRequest c msg w.ext with ⟨_ | req, s1⟩
    · simp [sendMessage, World.log, hsign]
    · rcases hdo : env.Do req s1 with ⟨_ | resp, s2⟩
      · simp [sendMessage, World.log, hsign, hdo]
      · by_cases hstatus : resp.StatusCode = 202
        · rcases hbody : resp.Body with _ | b
          · simp [sendMessage, World.log, hsign, hdo, hstatus, StatusAccepted, hbody]
          · rcases hdecode : env.unmarshalMailResponse b with _ | mailResp
            · simp [sendMessage, World.log, hsign, hdo, hstatus, StatusAccepted, hbody,
                hdecode]
            · have hres : (sendMessage env c msg w).1 = (mailResp.ID, none) := by
                simp [sendMessage, World.log, hsign, hdo, hstatus, StatusAccepted, hbody,
                  hdecode]
              rw [hres]
              exact ⟨fun _ => ⟨req, s1, resp, s2, b, mailResp, rfl, hdo, hstatus, hbody,
                hdecode, rfl⟩, fun _ => rfl⟩
        · rcases hbody : resp.Body with _ | b
          · simp [sendMessage, World.log, hsign, hdo, hstatus, StatusAccepted, hbody]
          · rcases hdecode : env.unmarshalErrorResponse b with _ | errorResp
            · simp [sendMessage, World.log, hsign, hdo, hstatus, StatusAccepted, hbody,
                hdecode]
            · simp [sendMessage, World.log, hsign, hdo, hstatus, StatusAccepted, hbody,
                hdecode]
  · intro req s1 resp s2 b errorResp hsign hdo hstatus hbody hdecode
    simp [sendMessage, World.log, hsign, hdo, hstatus, StatusAccepted, hbody, hdecode]

/-- C9, amended, at three sends: a 202 response that carries an id, a 202
response that carries none, and a 500 response whose envelope has no message. -/
theorem C9_sendMessage_outcome_witness :
    (sendMessage scriptedEnv sampleClient
        (newMailMessage sampleClient (sampleMail "hello")) world0).1 = ("abc123", none)
    ∧ (sendMessage scriptedEnv sampleClient
        (newMailMessage sampleClient (sampleMail "no id")) world0).1.2 = none
    ∧ ((sendMessage scriptedEnv sampleClient
        (newMailMessage sampleClient (sampleMail "no message")) world0).1.1 = ""
      ∧ (sendMessage scriptedEnv sampleClient
        (newMailMessage sampleClient (sampleMail "no message")) world0).1.2 ≠ none) :=
  ⟨rfl,
   (C9_sendMessage_outcome scriptedEnv sampleClient
      (newMailMessage sampleClient (sampleMail "no id")) world0).2.1.2
      ⟨{ Method := "POST", URL := "https://example.invalid/emails:send", Header := [],
         Body := asciiBytes "no id" }, 0,
       { StatusCode := 202, Body := .ok emptyObjectBody }, 1, emptyObjectBody,
       { ID := "", Error := errorDetailResponse.zero }, rfl, rfl, rfl, rfl, rfl, rfl⟩,
   (C9_sendMessage_outcome scriptedEnv sampleClient
      (newMailMessage sampleClient (sampleMail "no message")) world0).2.2
      { Method := "POST", URL := "https://example.invalid/emails:send", Header := [],
        Body := asciiBytes "no message" } 0
      { StatusCode := 500, Body := .ok emptyObjectBody } 1 emptyObjectBody
      (.mk errorDetailResponse.zero) rfl rfl (by decide) rfl rfl⟩

/-- C10: a failure before a response exists ends the send with that error,
unchanged. When building the signed request fails, `sendMessage` returns the empty
id and the error of the signer, and the transport is not called; when the
transport fails, `sendMessage` returns the empty id and the error of the
transport, after one call of the transport, with the request the signer built. -/
theorem C10_sendMessage_early_failures {σ : Type} (env : Env σ) (c : Client)
    (msg : mailMessage) (w : World σ) :
    (∀ (err : GoError) (s1 : σ),
        env.generateSignedMessageRequest c msg w.ext = (.error err, s1) →
        (sendMessage env c msg w).1 = ("", some err)
        ∧ transportCalls (sendMessage env c msg w).2.trace = transportCalls w.trace)
    ∧ (∀ (req : Request) (s1 : σ) (err : GoError) (s2 : σ),
        env.generateSignedMessageRequest c msg w.ext = (.ok req, s1) →
        env.Do req s1 = (.error err, s2) →
        (sendMessage env c msg w).1 = ("", some err)
        ∧ transportCalls (sendMessage env c msg w).2.trace
            = transportCalls w.trace ++ [req]) := by
  refine ⟨?_, ?_⟩
  · intro err s1 hsign
    simp [sendMessage, World.log, hsign, transportCalls_append, transportCalls]
  · intro req s1 err s2 hsign hdo
    simp [sendMessage, World.log, hsign, hdo, transportCalls_append, transportCalls]

/-- C10, at a client whose key cannot be decoded, and at a request that times
out. -/
theorem C10_sendMessage_early_failures_witness :
    ((sendMessage scriptedEnv badKeyClient
        (newMailMessage badKeyClient (sampleMail "hello")) world0).1
      = ("", some (.external "encoding/base64" "illegal base64 data at input byte 0"))
      ∧ transportCalls (sendMessage scriptedEnv badKeyClient
          (newMailMessage badKeyClient (sampleMail "hello")) world0).2.trace
        = transportCalls world0.trace)
    ∧ ((sendMessage scriptedEnv sampleClient
        (newMailMessage sampleClient (sampleMail "timeout")) world0).1
      = ("", some (.external "net/http" "context deadline exceeded"))
      ∧ transportCalls (sendMessage scriptedEnv sampleClient
          (newMailMessage sampleClient (sampleMail "timeout")) world0).2.trace
        = transportCalls world0.trace
          ++ [{ Method := "POST", URL := "https://example.invalid/emails:send",
                Header := [], Body := asciiBytes "timeout" }]) :=
  ⟨(C10_sendMessage_early_failures scriptedEnv badKeyClient
      (newMailMessage badKeyClient (sampleMail "hello")) world0).1 _ 0 rfl,
   (C10_sendMessage_early_failures scriptedEnv sampleClient
      (newMailMessage sampleClient (sampleMail "timeout")) world0).2 _ 0 _ 1 rfl rfl⟩

end Azmail
